import Mathlib

/-!
Verification of the CSV-to-BigQuery cloud function
(src/PythonCloudFunction.py) against its natural-language specification.

Strings are modelled as lists of Unicode scalar values (`List Char`),
matching Python 3 `str` values (one element per code point).  Bytes are
modelled as `Nat` values below 256.
-/

abbrev PyStr := List Char

abbrev Byte := Nat

/-- The ASCII word characters `[A-Za-z0-9_]` (this is exactly what the
regular expression class `\w` matches under the `re.ASCII` flag, and it is
the character set named by the specification). -/
def isAsciiWordChar (c : Char) : Bool :=
  decide (65 ≤ c.toNat ∧ c.toNat ≤ 90) ||
  decide (97 ≤ c.toNat ∧ c.toNat ≤ 122) ||
  decide (48 ≤ c.toNat ∧ c.toNat ≤ 57) ||
  decide (c.toNat = 95)

/-- Latin-1 word characters beyond ASCII.  Python `str.isalnum` is true on
the Latin-1 block exactly for U+00AA, U+00B2, U+00B3, U+00B5, U+00B9,
U+00BA, U+00BC, U+00BD, U+00BE and the letters U+00C0 to U+00FF other than
the two operators U+00D7 and U+00F7. -/
def pyLatin1WordChar (c : Char) : Bool :=
  decide (c.toNat = 0xAA) || decide (c.toNat = 0xB2) || decide (c.toNat = 0xB3) ||
  decide (c.toNat = 0xB5) || decide (c.toNat = 0xB9) || decide (c.toNat = 0xBA) ||
  decide (c.toNat = 0xBC) || decide (c.toNat = 0xBD) || decide (c.toNat = 0xBE) ||
  (decide (0xC0 ≤ c.toNat) && decide (c.toNat ≤ 0xFF) &&
   decide (c.toNat ≠ 0xD7) && decide (c.toNat ≠ 0xF7))

/-- The character class matched by `\w` in a Python 3 `str` pattern, as used
by `re.sub` in the source: it is Unicode-aware, matching the underscore and
every Unicode alphanumeric character (`str.isalnum`), NOT merely
`[A-Za-z0-9_]`.  The embedding is exact on ASCII and on the Latin-1 block;
alphanumeric code points above U+00FF are not enumerated here (the table is
an under-approximation there — no theorem below depends on the value of
this predicate above U+00FF, and every concrete character appearing in a
theorem lies in the Latin-1 block, where the table is exact). -/
def pyIsWordChar (c : Char) : Bool :=
  isAsciiWordChar c || pyLatin1WordChar c

/-- The per-character action of `re.sub(r'\W', '_', name)`: `\W` matches a
single character outside `\w`, and each such character is replaced by one
underscore. -/
def sanitizeChar (c : Char) : Char :=
  if pyIsWordChar c then c else '_'

/-- `sanitize_field_name` from the source:
`re.sub(r'\W', '_', name)` followed by the slice `[:128]`
(Python slicing counts code points, as does `List.take`). -/
def sanitize_field_name (name : PyStr) : PyStr :=
  (name.map sanitizeChar).take 128

/-- `pat` is a prefix of the second list (character-wise comparison). -/
def listStartsWith (pat : List Char) : List Char → Bool
  | [] => pat.isEmpty
  | c :: cs =>
    match pat with
    | [] => true
    | p :: ps => decide (p = c) && listStartsWith ps cs

/-- `pat` occurs as a contiguous substring of the list. -/
def containsSub (pat : List Char) : List Char → Bool
  | [] => pat.isEmpty
  | c :: cs => listStartsWith pat (c :: cs) || containsSub pat cs

/-- `suf` is a suffix of `s`. -/
def listEndsWith (suf s : List Char) : Bool :=
  listStartsWith suf.reverse s.reverse

/-- Fuel-indexed scan implementing Python `s.replace(old, "")` for a
non-empty `old`: scan left to right; at each position, if `old` matches
there, delete it and resume after the match (occurrences are replaced
non-overlapping, leftmost first), otherwise keep the character.  The fuel
only bounds recursion depth; `pyReplace` supplies `s.length`, which always
suffices (each step consumes at least one character). -/
def pyReplaceAux (old : List Char) : Nat → List Char → List Char
  | _, [] => []
  | 0, s => s
  | fuel + 1, c :: cs =>
    if listStartsWith old (c :: cs) && !old.isEmpty then
      pyReplaceAux old fuel (cs.drop (old.length - 1))
    else
      c :: pyReplaceAux old fuel cs

/-- Python `s.replace(old, "")`, the string method used at
`file_name.replace(".csv", "")` in the source (there `old = ".csv"`, which
is non-empty; the empty-pattern corner of Python `replace` is outside the
call sites and not modelled). -/
def pyReplace (old s : List Char) : List Char :=
  pyReplaceAux old s.length s

/-- The `".csv"` literal of the source. -/
def csvExt : PyStr := ".csv".data

/-- Derivation of the BigQuery table id in `process_csv_file`:
`table_id = file_name.replace(".csv", "")`. -/
def derivedTableId (file_name : PyStr) : PyStr :=
  pyReplace csvExt file_name

/-!
## Pipeline model

`process_csv_file` is an event handler whose external collaborators
(storage download, chardet encoding detection, codec decoding, BigQuery
table creation and load jobs) are supplied by an environment record.  The
handler is embedded as a function from the event payload and that
environment to the invocation outcome (normal return or uncaught Python
exception) together with the ordered trace of external effects.
-/

/-- Python exceptions that can cross the stage boundaries of the handler.
`emptyFileError` is the distinct caller-visible empty-file condition the
specification asks for; the source never raises it. -/
inductive PyErr where
  | stopIteration
  | unicodeDecodeError
  | apiError (msg : PyStr)
  | emptyFileError
deriving DecidableEq

/-- External collaborators of one invocation.
`content` is the byte content of the triggering object (the storage
download; its success is not at issue in any claim).
`detect` is `chardet.detect(raw)["encoding"]`: a best-guess label or
`none` (indeterminate guess).
`decode` is the text decoding performed by `open(path, "r",
encoding=enc)` and the subsequent read: the codec index `none` stands for
`encoding=None`, which Python treats as the platform default encoding (it
is not an error); the result is `none` exactly when the read raises
`UnicodeDecodeError`.  Decoding is modelled on the whole content (the
source only consumes the first record, so only claims insensitive to read
laziness are settled against this).
`createTableOutcome` and `loadJobOutcome` are the warehouse replies:
`none` for success, `some e` for the API error the client raises. -/
structure CloudEnv where
  content : List Byte
  detect : List Byte → Option PyStr
  decode : Option PyStr → List Byte → Option PyStr
  createTableOutcome : Option PyErr
  loadJobOutcome : Option PyErr

/-- The configuration of a BigQuery load job, with the three fields the
source sets on `bigquery.LoadJobConfig`. -/
structure LoadJobConfig where
  sourceFormat : PyStr
  skipLeadingRows : Nat
  writeDisposition : PyStr
deriving DecidableEq

/-- Externally visible effects of one invocation, in order.  `tempCreate`
and `tempDelete` are the creation and removal of the named temporary file
(`with tempfile.NamedTemporaryFile()`), `deleteTable` is a table-deletion
call the BigQuery client offers; the source never issues it (no rollback). -/
inductive Ev where
  | tempCreate
  | download (bucket object : PyStr)
  | tempDelete
  | createTable (dataset_id table_id : PyStr) (schema : List (PyStr × PyStr))
  | loadJob (source_uri dataset_id table_id : PyStr) (cfg : LoadJobConfig)
  | deleteTable (dataset_id table_id : PyStr)
deriving DecidableEq

/-- First line of the decoded text (csv reads one record per line here;
universal-newline text mode treats both LF and CR as line ends). -/
def csvFirstLine (text : PyStr) : PyStr :=
  text.takeWhile fun c => decide (c ≠ '\n') && decide (c ≠ '\r')

/-- `next(csv.reader(f))`: raises `StopIteration` on a file with no
record; a blank first line yields the empty record; otherwise the first
line split on commas.  (The default csv dialect also unquotes quoted
fields; no claim exercises quoting, so field splitting is modelled on
comma positions.) -/
def csvFirstRecord (text : PyStr) : Except PyErr (List PyStr) :=
  if text.isEmpty then .error .stopIteration
  else
    let line := csvFirstLine text
    if line.isEmpty then .ok [] else .ok (line.splitOn ',')

/-- The header-extraction portion of `process_csv_file` (lines 85 to 91 of
the source): detect the encoding with chardet, reopen the file in text
mode with the detected label passed straight to `open` (a `none` label is
passed through unchecked and means the platform default codec), and read
the first csv record. -/
def extract_header (env : CloudEnv) : Except PyErr (List PyStr) :=
  let encoding := env.detect env.content
  match env.decode encoding env.content with
  | none => .error .unicodeDecodeError
  | some text => csvFirstRecord text

/-- The schema built by `create_bq_table_from_header`: one
`SchemaField(sanitize_field_name(name), "STRING")` per header entry, in
header order. -/
def bqSchemaFromHeader (header : List PyStr) : List (PyStr × PyStr) :=
  header.map fun name => (sanitize_field_name name, "STRING".data)

/-- `create_bq_table_from_header`: issues one create-table call carrying
the schema derived from the header; the collaborator reply decides the
outcome. -/
def create_bq_table_from_header (env : CloudEnv) (dataset_id table_id : PyStr)
    (header : List PyStr) : Except PyErr Unit × List Ev :=
  let calls := [Ev.createTable dataset_id table_id (bqSchemaFromHeader header)]
  match env.createTableOutcome with
  | none => (.ok (), calls)
  | some e => (.error e, calls)

/-- The `bigquery.LoadJobConfig(...)` literal of the source: CSV source
format, skip exactly one leading row, `WRITE_TRUNCATE` disposition. -/
def bqLoadJobConfig : LoadJobConfig :=
  { sourceFormat := "CSV".data
    skipLeadingRows := 1
    writeDisposition := "WRITE_TRUNCATE".data }

/-- `load_csv_to_bq`: submits one load job with `bqLoadJobConfig` and then
calls `load_job.result()`, which blocks until the job reaches a terminal
state; the invocation outcome is that terminal state. -/
def load_csv_to_bq (env : CloudEnv) (source_uri dataset_id table_id : PyStr) :
    Except PyErr Unit × List Ev :=
  let calls := [Ev.loadJob source_uri dataset_id table_id bqLoadJobConfig]
  match env.loadJobOutcome with
  | none => (.ok (), calls)
  | some e => (.error e, calls)

/-- Hard-coded deployment configuration of the source. -/
def bucketName : PyStr := "csv-processing-bucket".data

/-- Hard-coded dataset id of the source. -/
def datasetId : PyStr := "csv_imports".data

/-- `source_uri = f"gs://{bucket_name}/{file_name}"`. -/
def sourceUri (file_name : PyStr) : PyStr :=
  "gs://".data ++ bucketName ++ "/".data ++ file_name

/-- `process_csv_file(event, context)`: the full handler for a payload
with `event["name"] = event_name` (the unused `context` argument is
dropped).  The temporary file is created on entry to the `with` block and
removed on every exit from it, normal or exceptional, before the two
warehouse stages run; an uncaught exception at any stage ends the
invocation with that exception and skips all later stages. -/
def process_csv_file (event_name : PyStr) (env : CloudEnv) :
    Except PyErr Unit × List Ev :=
  let file_name := event_name
  let table_id := derivedTableId file_name
  let source_uri := sourceUri file_name
  let tempPart := [Ev.tempCreate, Ev.download bucketName file_name, Ev.tempDelete]
  match extract_header env with
  | .error e => (.error e, tempPart)
  | .ok header =>
    let created := create_bq_table_from_header env datasetId table_id header
    match created.1 with
    | .error e => (.error e, tempPart ++ created.2)
    | .ok _ =>
      let loaded := load_csv_to_bq env source_uri datasetId table_id
      (loaded.1, tempPart ++ created.2 ++ loaded.2)

/-- A concrete single-byte codec in which every byte value denotes the
Unicode scalar of the same value (ISO-8859-1; it agrees with UTF-8 and
ASCII below 0x80).  Used to instantiate environments in witnesses. -/
def latin1Decode (bs : List Byte) : Option PyStr :=
  some (bs.map Char.ofNat)

/-- Environment of a zero-byte upload: every codec decodes the empty byte
string to the empty text, and chardet reports an indeterminate guess. -/
def emptyFileEnv : CloudEnv :=
  { content := []
    detect := fun _ => none
    decode := fun _ bs => latin1Decode bs
    createTableOutcome := none
    loadJobOutcome := none }

/-- Environment of a well-formed upload: ASCII content with the example
header row, a determinate detector guess, a codec that decodes every byte,
and a warehouse that accepts both calls. -/
def okEnv : CloudEnv :=
  { content := ("Name,E-Mail,Zip Code\nAda,a at b,12345\n".data.map Char.toNat)
    detect := fun _ => some ("ascii".data)
    decode := fun _ bs => latin1Decode bs
    createTableOutcome := none
    loadJobOutcome := none }

/-- Environment of a short binary-like upload (bytes 0x00 0x0A) in the
failure mode of section 4.2 of the specification: the detector reports an
indeterminate guess, while each byte still decodes under the platform
default codec, and the warehouse accepts both calls. -/
def nullGuessEnv : CloudEnv :=
  { content := [0x00, 0x0A]
    detect := fun _ => none
    decode := fun _ bs => latin1Decode bs
    createTableOutcome := none
    loadJobOutcome := none }

/-- `okEnv` with a warehouse that rejects the create-table call (for
example a provisioning conflict on a re-uploaded object). -/
def failCreateEnv : CloudEnv :=
  { okEnv with createTableOutcome := some (.apiError ("table already exists".data)) }

/-- Number of occurrences of one effect in a trace. -/
def countEv (e : Ev) : List Ev → Nat
  | [] => 0
  | x :: xs => (if x = e then 1 else 0) + countEv e xs

/-!
## Sanitizer lemmas
-/

/-- Explicit character list of the `".csv"` literal. -/
theorem csvExt_chars : csvExt = ['.', 'c', 's', 'v'] := by decide

/-- Below code point 128 the Unicode word class of Python coincides with
the ASCII class `[A-Za-z0-9_]`. -/
theorem pyIsWordChar_of_ascii (c : Char) (h : c.toNat < 128) :
    pyIsWordChar c = isAsciiWordChar c := by
  have hl : pyLatin1WordChar c = false := by
    simp only [pyLatin1WordChar, Bool.or_eq_false_iff, Bool.and_eq_false_iff,
      decide_eq_false_iff_not]
    omega
  simp [pyIsWordChar, hl]

/-- One sanitization pass maps every character to a word character, so a
second pass keeps it. -/
theorem sanitizeChar_idem (c : Char) :
    sanitizeChar (sanitizeChar c) = sanitizeChar c := by
  by_cases h : pyIsWordChar c = true
  · simp [sanitizeChar, h]
  · have h2 : pyIsWordChar c = false := by
      revert h; cases pyIsWordChar c <;> simp
    have hu : pyIsWordChar '_' = true := by decide
    simp [sanitizeChar, h2, hu]

/-- C1 fails on the code: Python `\W` is Unicode-aware, so the non-ASCII
letter U+00E9 passes through `sanitize_field_name` unchanged even though
it lies outside `[A-Za-z0-9_]`. -/
theorem c1_sanitize_ascii_only_counterexample :
    sanitize_field_name ['é'] = ['é'] ∧ isAsciiWordChar 'é' = false := by
  decide

/-- C1 (amended): for every input string, the result has length at most
128; characters are replaced one for one by underscores exactly when they
fall outside the Unicode word class of Python, so on ASCII input every
output character lies in `[A-Za-z0-9_]` (on general input a non-ASCII
alphanumeric such as U+00E9 is kept). -/
theorem c1_sanitize_ascii_amended (s : PyStr) (h : ∀ c ∈ s, c.toNat < 128) :
    (sanitize_field_name s).length ≤ 128 ∧
    ∀ c ∈ sanitize_field_name s, isAsciiWordChar c = true := by
  constructor
  · simp [sanitize_field_name]
  · intro c hc
    have hc2 : c ∈ s.map sanitizeChar := List.take_subset _ _ hc
    rcases List.mem_map.1 hc2 with ⟨a, ha, rfl⟩
    have ha128 := h a ha
    by_cases hw : pyIsWordChar a = true
    · have : isAsciiWordChar a = true := by
        rw [← pyIsWordChar_of_ascii a ha128]; exact hw
      simpa [sanitizeChar, hw] using this
    · have h2 : pyIsWordChar a = false := by
        revert hw; cases pyIsWordChar a <;> simp
      simp [sanitizeChar, h2]
      decide

/-- Witness for the amended C1 at the concrete ASCII token "Zip Code". -/
theorem c1_sanitize_ascii_amended_witness :
    (sanitize_field_name ("Zip Code".data)).length ≤ 128 ∧
    ∀ c ∈ sanitize_field_name ("Zip Code".data), isAsciiWordChar c = true :=
  c1_sanitize_ascii_amended ("Zip Code".data) (by decide)

/-- C5: `sanitize_field_name` is idempotent. -/
theorem c5_sanitize_idempotent (s : PyStr) :
    sanitize_field_name (sanitize_field_name s) = sanitize_field_name s := by
  unfold sanitize_field_name
  rw [List.map_take, List.map_map]
  have hidem : sanitizeChar ∘ sanitizeChar = sanitizeChar := funext sanitizeChar_idem
  rw [hidem, List.take_take]
  simp

/-- C10: sanitization is one character for one character followed by
truncation, so the output length is exactly `min (length input) 128`. -/
theorem c10_sanitize_length (s : PyStr) :
    (sanitize_field_name s).length = min s.length 128 := by
  simp [sanitize_field_name, Nat.min_comm]

/-- C7: the schema built from a header has one column per header token in
order, each column being the sanitized token typed STRING; on the header
["Name", "E-Mail", "Zip Code"] this gives ["Name", "E_Mail", "Zip_Code"],
each STRING. -/
theorem c7_schema_from_header (header : List PyStr) (i : Nat) (name : PyStr)
    (h : header[i]? = some name) :
    (bqSchemaFromHeader header).length = header.length ∧
    (bqSchemaFromHeader header)[i]? = some (sanitize_field_name name, "STRING".data) ∧
    bqSchemaFromHeader ["Name".data, "E-Mail".data, "Zip Code".data] =
      [("Name".data, "STRING".data), ("E_Mail".data, "STRING".data),
       ("Zip_Code".data, "STRING".data)] :=
  ⟨by simp [bqSchemaFromHeader], by simp [bqSchemaFromHeader, h], by decide⟩

/-- Witness for C7 at the middle column of the example header. -/
theorem c7_schema_from_header_witness :
    (bqSchemaFromHeader ["Name".data, "E-Mail".data, "Zip Code".data]).length =
      (["Name".data, "E-Mail".data, "Zip Code".data] : List PyStr).length ∧
    (bqSchemaFromHeader ["Name".data, "E-Mail".data, "Zip Code".data])[1]? =
      some (sanitize_field_name ("E-Mail".data), "STRING".data) ∧
    bqSchemaFromHeader ["Name".data, "E-Mail".data, "Zip Code".data] =
      [("Name".data, "STRING".data), ("E_Mail".data, "STRING".data),
       ("Zip_Code".data, "STRING".data)] :=
  c7_schema_from_header ["Name".data, "E-Mail".data, "Zip Code".data] 1
    ("E-Mail".data) (by decide)

/-!
## Table-id derivation lemmas
-/

/-- The scan returns nothing on an empty input, whatever the fuel. -/
theorem pyReplaceAux_nil (old : List Char) (fuel : Nat) :
    pyReplaceAux old fuel [] = [] := by
  cases fuel <;> rfl

/-- If the pattern occurs nowhere in the input, the scan keeps every
character. -/
theorem pyReplaceAux_no_occ (old : List Char) (s : List Char) :
    ∀ fuel : Nat, s.length ≤ fuel → containsSub old s = false →
      pyReplaceAux old fuel s = s := by
  induction s with
  | nil => intro fuel _ _; exact pyReplaceAux_nil old fuel
  | cons c cs ih =>
    intro fuel hlen hocc
    match fuel with
    | 0 => simp at hlen
    | fuel + 1 =>
      have hs : listStartsWith old (c :: cs) = false ∧ containsSub old cs = false := by
        simpa [containsSub] using hocc
      have hlen2 : cs.length ≤ fuel := by simp at hlen; omega
      simp [pyReplaceAux, hs.1, ih fuel hlen2 hs.2]

/-- `replace` is the identity on strings in which the pattern never
occurs. -/
theorem pyReplace_no_occ (old s : List Char) (h : containsSub old s = false) :
    pyReplace old s = s :=
  pyReplaceAux_no_occ old s s.length (Nat.le_refl _) h

/-- An empty pattern is a prefix of every list. -/
theorem listStartsWith_nil (s : List Char) : listStartsWith [] s = true := by
  cases s <;> rfl

/-- No occurrence of `".csv"` can straddle the boundary between a stem and
an appended `".csv"`: a match at the head of `c :: stem ++ ".csv"` forces a
match lying inside `c :: stem` (the pattern has no border: none of its
proper non-empty prefixes is also a suffix). -/
theorem csv_no_straddle (c : Char) (stem : List Char)
    (h : listStartsWith csvExt (c :: (stem ++ csvExt)) = true) :
    containsSub csvExt (c :: stem) = true := by
  match stem with
  | [] =>
    exfalso
    rw [csvExt_chars] at h
    simp only [List.nil_append, listStartsWith, Bool.and_eq_true,
      decide_eq_true_eq] at h
    exact absurd h.2.1 (by decide)
  | [d] =>
    exfalso
    rw [csvExt_chars] at h
    simp only [List.cons_append, List.nil_append, listStartsWith,
      Bool.and_eq_true, decide_eq_true_eq] at h
    exact absurd h.2.2.1 (by decide)
  | [d, e] =>
    exfalso
    rw [csvExt_chars] at h
    simp only [List.cons_append, List.nil_append, listStartsWith,
      Bool.and_eq_true, decide_eq_true_eq] at h
    exact absurd h.2.2.2.1 (by decide)
  | d :: e :: f :: rest =>
    have h2 : listStartsWith csvExt (c :: d :: e :: f :: rest) = true := by
      rw [csvExt_chars] at h ⊢
      simpa [listStartsWith, listStartsWith_nil] using h
    simp [containsSub, h2]

/-- Appending `".csv"` to a stem free of `".csv"` and running the scan
gives back the stem: the scan keeps every stem character and deletes the
final four. -/
theorem pyReplaceAux_strip_csv (stem : List Char) :
    ∀ fuel : Nat, (stem ++ csvExt).length ≤ fuel →
      containsSub csvExt stem = false →
      pyReplaceAux csvExt fuel (stem ++ csvExt) = stem := by
  induction stem with
  | nil =>
    intro fuel hlen _
    obtain ⟨f, rfl⟩ : ∃ f, fuel = f + 1 := by
      cases fuel with
      | zero => rw [csvExt_chars] at hlen; simp at hlen
      | succ f => exact ⟨f, rfl⟩
    rw [List.nil_append, csvExt_chars]
    simp [pyReplaceAux, listStartsWith, csvExt_chars, pyReplaceAux_nil]
  | cons c stem ih =>
    intro fuel hlen hocc
    obtain ⟨f, rfl⟩ : ∃ f, fuel = f + 1 := by
      cases fuel with
      | zero => simp at hlen
      | succ f => exact ⟨f, rfl⟩
    have hocc2 : listStartsWith csvExt (c :: stem) = false ∧
        containsSub csvExt stem = false := by
      simpa [containsSub] using hocc
    have hns : listStartsWith csvExt (c :: (stem ++ csvExt)) = false := by
      cases hcond : listStartsWith csvExt (c :: (stem ++ csvExt)) with
      | false => rfl
      | true =>
        have h1 := csv_no_straddle c stem hcond
        rw [hocc] at h1
        exact absurd h1 (by decide)
    have hlen2 : (stem ++ csvExt).length ≤ f := by simp at hlen ⊢; omega
    simp [pyReplaceAux, hns, ih f hlen2 hocc2.2]

/-- `replace(".csv", "")` strips a final `".csv"` from a name whose stem
is free of the pattern. -/
theorem pyReplace_strip_suffix (stem : List Char)
    (h : containsSub csvExt stem = false) :
    pyReplace csvExt (stem ++ csvExt) = stem :=
  pyReplaceAux_strip_csv stem (stem ++ csvExt).length (Nat.le_refl _) h

/-- C2 fails on the code: `str.replace` deletes every occurrence of
`".csv"`, not only a trailing suffix.  The object name "a.csvb" does not
end in ".csv", yet its derived table id is "ab", not the unchanged name. -/
theorem c2_table_id_counterexample :
    listEndsWith csvExt ("a.csvb".data) = false ∧
    derivedTableId ("a.csvb".data) ≠ "a.csvb".data ∧
    derivedTableId ("a.csvb".data) = "ab".data := by
  decide

/-- C2 (amended): the derived table id is the object name with every
non-overlapping occurrence of the substring ".csv" removed, not only a
trailing suffix: a name in which ".csv" never occurs is unchanged, a name
of the form stem ++ ".csv" whose stem is free of ".csv" yields the stem
(so "orders-2024.csv" yields "orders-2024"), and an interior occurrence is
removed as well. -/
theorem c2_table_id_amended (s stem : PyStr)
    (h1 : containsSub csvExt s = false) (h2 : containsSub csvExt stem = false) :
    derivedTableId s = s ∧
    derivedTableId (stem ++ csvExt) = stem ∧
    derivedTableId ("orders-2024.csv".data) = "orders-2024".data :=
  ⟨pyReplace_no_occ csvExt s h1, pyReplace_strip_suffix stem h2, by decide⟩

/-- Witness for the amended C2 at the names "report" and
"orders-2024.csv". -/
theorem c2_table_id_amended_witness :
    derivedTableId ("report".data) = "report".data ∧
    derivedTableId ("orders-2024".data ++ csvExt) = "orders-2024".data ∧
    derivedTableId ("orders-2024.csv".data) = "orders-2024".data :=
  c2_table_id_amended ("report".data) ("orders-2024".data) (by decide) (by decide)

/-!
## Pipeline lemmas
-/

/-- A file with at least one character of text always yields a first
record (never StopIteration). -/
theorem csvFirstRecord_cons (a : Char) (as : PyStr) :
    ∃ r, csvFirstRecord (a :: as) = .ok r := by
  unfold csvFirstRecord
  simp only [List.isEmpty_cons, Bool.false_eq_true, if_false]
  split
  · exact ⟨[], rfl⟩
  · exact ⟨_, rfl⟩

/-- Evaluation of the handler when header extraction raises: the
exception leaves the invocation after the temporary file is removed, and
no warehouse call is issued. -/
theorem process_of_header_error (event_name : PyStr) (env : CloudEnv)
    (e : PyErr) (h : extract_header env = .error e) :
    process_csv_file event_name env =
      (.error e,
       [Ev.tempCreate, Ev.download bucketName event_name, Ev.tempDelete]) := by
  unfold process_csv_file
  rw [h]

/-- Evaluation of the handler when header extraction succeeds and the
create-table call is rejected: the API error leaves the invocation and no
load job is submitted. -/
theorem process_of_create_error (event_name : PyStr) (env : CloudEnv)
    (header : List PyStr) (e : PyErr)
    (h : extract_header env = .ok header)
    (hc : env.createTableOutcome = some e) :
    process_csv_file event_name env =
      (.error e,
       [Ev.tempCreate, Ev.download bucketName event_name, Ev.tempDelete,
        Ev.createTable datasetId (derivedTableId event_name)
          (bqSchemaFromHeader header)]) := by
  unfold process_csv_file create_bq_table_from_header
  rw [h, hc]
  rfl

/-- Evaluation of the handler when header extraction succeeds and the
create-table call is accepted: the load job is submitted with the fixed
configuration, and the invocation outcome is the terminal status of the
blocking wait. -/
theorem process_of_create_ok (event_name : PyStr) (env : CloudEnv)
    (header : List PyStr)
    (h : extract_header env = .ok header)
    (hc : env.createTableOutcome = none) :
    process_csv_file event_name env =
      ((match env.loadJobOutcome with
        | none => Except.ok ()
        | some e => Except.error e),
       [Ev.tempCreate, Ev.download bucketName event_name, Ev.tempDelete,
        Ev.createTable datasetId (derivedTableId event_name)
          (bqSchemaFromHeader header),
        Ev.loadJob (sourceUri event_name) datasetId (derivedTableId event_name)
          bqLoadJobConfig]) := by
  unfold process_csv_file create_bq_table_from_header load_csv_to_bq
  rw [h, hc]
  cases env.loadJobOutcome <;> rfl

/-- C3 (what the code does on the failing input): on a zero-byte upload
the generic iteration-exhaustion exception of `next(reader)`
(StopIteration) leaves the invocation uncaught; the distinct
caller-visible empty-file error required by the specification is not
raised. -/
theorem c3_empty_file_stop_iteration (event_name : PyStr) (env : CloudEnv)
    (h1 : env.content = [])
    (h2 : env.decode (env.detect []) [] = some []) :
    (process_csv_file event_name env).1 = .error .stopIteration ∧
    (process_csv_file event_name env).1 ≠ .error .emptyFileError := by
  have hex : extract_header env = .error .stopIteration := by
    simp only [extract_header, h1, h2]
    rfl
  rw [process_of_header_error event_name env _ hex]
  simp

/-- Witness for C3 at a concrete zero-byte environment. -/
theorem c3_empty_file_stop_iteration_witness :
    (process_csv_file ("data.csv".data) emptyFileEnv).1 = .error .stopIteration ∧
    (process_csv_file ("data.csv".data) emptyFileEnv).1 ≠ .error .emptyFileError :=
  c3_empty_file_stop_iteration ("data.csv".data) emptyFileEnv rfl rfl

/-- C4 fails on the code: an invocation on which the detector returns an
indeterminate (null) guess can proceed to a successful load.  The null
guess is passed to `open` unchecked, `open` substitutes the platform
default codec, the two content bytes decode under it, and both warehouse
calls succeed. -/
theorem c4_null_guess_counterexample :
    nullGuessEnv.detect nullGuessEnv.content = none ∧
    (process_csv_file ("t.csv".data) nullGuessEnv).1 = .ok () :=
  ⟨rfl, rfl⟩

/-- C4 (amended): the handler performs no check on a null detector guess;
it opens the file with the platform default codec in that case, so an
invocation with a null guess succeeds exactly when the bytes decode under
the default codec to a non-empty text and both warehouse calls succeed —
it is not guaranteed to fail. -/
theorem c4_null_guess_amended (event_name : PyStr) (env : CloudEnv)
    (h : env.detect env.content = none) :
    (process_csv_file event_name env).1 = .ok () ↔
      (∃ text, env.decode none env.content = some text ∧ text ≠ [] ∧
        env.createTableOutcome = none ∧ env.loadJobOutcome = none) := by
  have hex : extract_header env =
      match env.decode none env.content with
      | none => Except.error PyErr.unicodeDecodeError
      | some text => csvFirstRecord text := by
    unfold extract_header
    rw [h]
  cases hd : env.decode none env.content with
  | none =>
    have hex2 : extract_header env = .error .unicodeDecodeError := by
      rw [hex, hd]
    rw [process_of_header_error event_name env _ hex2]
    simp
  | some text =>
    cases text with
    | nil =>
      have hex2 : extract_header env = .error .stopIteration := by
        rw [hex, hd]
        rfl
      rw [process_of_header_error event_name env _ hex2]
      simp
    | cons a as =>
      obtain ⟨r, hr⟩ := csvFirstRecord_cons a as
      have hex2 : extract_header env = .ok r := by
        rw [hex, hd]
        exact hr
      cases hc : env.createTableOutcome with
      | some e =>
        rw [process_of_create_error event_name env r e hex2 hc]
        simp
      | none =>
        rw [process_of_create_ok event_name env r hex2 hc]
        cases hl : env.loadJobOutcome <;> simp

/-- Witness for the amended C4 at the concrete null-guess environment. -/
theorem c4_null_guess_amended_witness :
    (process_csv_file ("t.csv".data) nullGuessEnv).1 = .ok () ↔
      (∃ text, nullGuessEnv.decode none nullGuessEnv.content = some text ∧
        text ≠ [] ∧ nullGuessEnv.createTableOutcome = none ∧
        nullGuessEnv.loadJobOutcome = none) :=
  c4_null_guess_amended ("t.csv".data) nullGuessEnv rfl

/-- C6: whenever the invocation reaches the load stage (header extraction
succeeded and the create-table call was accepted), the submitted load job
carries exactly the fixed configuration — CSV source format, exactly one
skipped leading row, WRITE_TRUNCATE disposition — and the blocking
`load_job.result()` makes the invocation outcome the terminal status the
warehouse reports for the job. -/
theorem c6_load_job_truncate (event_name : PyStr) (env : CloudEnv)
    (header : List PyStr)
    (h1 : extract_header env = .ok header)
    (h2 : env.createTableOutcome = none) :
    Ev.loadJob (sourceUri event_name) datasetId (derivedTableId event_name)
        bqLoadJobConfig ∈ (process_csv_file event_name env).2 ∧
    bqLoadJobConfig.sourceFormat = "CSV".data ∧
    bqLoadJobConfig.skipLeadingRows = 1 ∧
    bqLoadJobConfig.writeDisposition = "WRITE_TRUNCATE".data ∧
    (process_csv_file event_name env).1 =
      (match env.loadJobOutcome with
       | none => Except.ok ()
       | some e => Except.error e) := by
  rw [process_of_create_ok event_name env header h1 h2]
  refine ⟨?_, rfl, rfl, rfl, rfl⟩
  simp

/-- Witness for C6 at a fully successful concrete invocation. -/
theorem c6_load_job_truncate_witness :
    Ev.loadJob (sourceUri ("orders-2024.csv".data)) datasetId
        (derivedTableId ("orders-2024.csv".data)) bqLoadJobConfig ∈
      (process_csv_file ("orders-2024.csv".data) okEnv).2 ∧
    bqLoadJobConfig.sourceFormat = "CSV".data ∧
    bqLoadJobConfig.skipLeadingRows = 1 ∧
    bqLoadJobConfig.writeDisposition = "WRITE_TRUNCATE".data ∧
    (process_csv_file ("orders-2024.csv".data) okEnv).1 =
      (match okEnv.loadJobOutcome with
       | none => Except.ok ()
       | some e => Except.error e) :=
  c6_load_job_truncate ("orders-2024.csv".data) okEnv
    ["Name".data, "E-Mail".data, "Zip Code".data] rfl rfl

/-- C8: a failure at any stage aborts every remaining stage — after a
header-extraction failure no warehouse call at all is issued, after a
rejected create-table call no load job is submitted — and on no path is a
table-deletion (cleanup or rollback) call ever issued, so a table created
before a failing load remains. -/
theorem c8_failure_aborts_pipeline (event_name : PyStr) (env : CloudEnv) :
    (∀ e, extract_header env = .error e →
      (∀ d t sch, Ev.createTable d t sch ∉ (process_csv_file event_name env).2) ∧
      (∀ u d t cfg, Ev.loadJob u d t cfg ∉ (process_csv_file event_name env).2)) ∧
    (∀ header e, extract_header env = .ok header →
      env.createTableOutcome = some e →
      ∀ u d t cfg, Ev.loadJob u d t cfg ∉ (process_csv_file event_name env).2) ∧
    (∀ d t, Ev.deleteTable d t ∉ (process_csv_file event_name env).2) := by
  refine ⟨?_, ?_, ?_⟩
  · intro e he
    rw [process_of_header_error event_name env e he]
    exact ⟨fun d t sch => by simp, fun u d t cfg => by simp⟩
  · intro header e hh hc
    rw [process_of_create_error event_name env header e hh hc]
    intro u d t cfg
    simp
  · intro d t
    cases hex : extract_header env with
    | error e =>
      rw [process_of_header_error event_name env e hex]
      simp
    | ok header =>
      cases hc : env.createTableOutcome with
      | some e =>
        rw [process_of_create_error event_name env header e hex hc]
        simp
      | none =>
        rw [process_of_create_ok event_name env header hex hc]
        simp

/-- Witness for C8 at a concrete invocation whose create-table call is
rejected: no load job was submitted and no table deletion was issued. -/
theorem c8_failure_aborts_pipeline_witness :
    Ev.loadJob (sourceUri ("t.csv".data)) datasetId (derivedTableId ("t.csv".data))
        bqLoadJobConfig ∉ (process_csv_file ("t.csv".data) failCreateEnv).2 ∧
    Ev.deleteTable datasetId (derivedTableId ("t.csv".data)) ∉
      (process_csv_file ("t.csv".data) failCreateEnv).2 :=
  ⟨(c8_failure_aborts_pipeline ("t.csv".data) failCreateEnv).2.1
      ["Name".data, "E-Mail".data, "Zip Code".data]
      (.apiError ("table already exists".data)) rfl rfl _ _ _ _,
   (c8_failure_aborts_pipeline ("t.csv".data) failCreateEnv).2.2 _ _⟩

/-- C9: on every exit path — header-extraction failure (decode error or
empty file), create-table failure, load failure or full success — the
temporary file is created exactly once and removed exactly once before
the invocation ends: the `with` block deletes it whether its body returns
or raises, and it is already gone before the warehouse stages run. -/
theorem c9_temp_file_always_removed (event_name : PyStr) (env : CloudEnv) :
    countEv Ev.tempCreate (process_csv_file event_name env).2 = 1 ∧
    countEv Ev.tempDelete (process_csv_file event_name env).2 = 1 := by
  cases hex : extract_header env with
  | error e =>
    rw [process_of_header_error event_name env e hex]
    exact ⟨by simp [countEv], by simp [countEv]⟩
  | ok header =>
    cases hc : env.createTableOutcome with
    | some e =>
      rw [process_of_create_error event_name env header e hex hc]
      exact ⟨by simp [countEv], by simp [countEv]⟩
    | none =>
      rw [process_of_create_ok event_name env header hex hc]
      exact ⟨by simp [countEv], by simp [countEv]⟩
